import Mathlib

set_option linter.unusedVariables false

/-!
Shallow embedding of the `video-english-recognition` pipeline.

Sources embedded:
  * `batch_process.py` — file discovery, SRT generation, per-video driver,
    batch main loop (namespace `Batch` plus the driver functions below);
  * `src/video_english_recognition.py` — the `VideoEnglishRecognizer`
    methods (namespace `Recog` plus `save_transcription`, `process_video`).

Modelling conventions:
  * Python floats are modelled as exact rationals (`ℚ`); the inputs the
    theorems use are exactly representable in binary floating point, where
    the rational and float computations agree.
  * The filesystem is a list of existing file paths (`List String`);
    writing a file inserts its path, `os.remove` erases it.  File contents
    are not tracked: the content-level properties are stated about the pure
    content functions (`srtContent`).
  * Fallible I/O is driven by an `Oracles` record: which writes raise,
    whether extraction succeeds, what the transcriber returns, whether the
    waveform delete raises.  A raising write is modelled as failing at
    `open`, so the path is not created.
  * `os.path.join` is modelled with the `/` separator.
-/

namespace VideoRec

/-! ### Path helpers (`pathlib.Path.stem`, `Path.name`, `os.path.join`) -/

/-- `Path(p).name`: the final path component. -/
def baseName (p : String) : String :=
  (p.splitOn "/").getLastD p

/-- `pathlib` stem of a file *name*: drop the last extension when the last
dot is neither at the start nor at the very end of the name. -/
def pathStem (name : String) : String :=
  let cs := name.toList
  match cs.reverse.indexOf? '.' with
  | none => name
  | some r =>
    let i := cs.length - 1 - r
    if 0 < i ∧ i < cs.length - 1 then String.mk (cs.take i) else name

/-- `os.path.join` with a POSIX separator. -/
def pathJoin (a b : String) : String := a ++ "/" ++ b

/-! ### Data model: the transcription record -/

/-- One Whisper segment: `{"start": float, "end": float, "text": str}`.
(`end` is a reserved word in Lean, so the field is called `stop`.) -/
structure Segment where
  start : ℚ
  stop : ℚ
  text : String
deriving DecidableEq

/-- A Whisper transcription result: full text plus ordered segments. -/
structure Transcription where
  text : String
  segments : List Segment
deriving DecidableEq

/-! ### Python numeric semantics on exact rationals -/

/-- Floor of a rational, as Python's `math.floor` / float `//` semantics
(the denominator is positive, so `Int.fdiv num den` is the floor). -/
def pyFloor (q : ℚ) : Int := Int.fdiv q.num q.den

/-- Python `int()` applied to a float: truncation toward zero. -/
def pyInt (q : ℚ) : Int := if 0 ≤ q then pyFloor q else -(pyFloor (-q))

/-- Python float `//`: floor division, result still a number. -/
def pyFloorDiv (a b : ℚ) : ℚ := (pyFloor (a / b) : ℚ)

/-- Python float `%`: remainder with the sign of the divisor,
`a - b * floor(a / b)`. -/
def pyMod (a b : ℚ) : ℚ := a - b * (pyFloor (a / b) : ℚ)

/-- Python `f"{i:0wd}"`: decimal rendering zero-padded to width `w`,
with the zeros inserted after the sign. -/
def zfill (w : Nat) (i : Int) : String :=
  if i < 0 then
    let s := toString (-i)
    "-" ++ String.mk (List.replicate (w - 1 - s.length) '0') ++ s
  else
    let s := toString i
    String.mk (List.replicate (w - s.length) '0') ++ s

/-! ### `batch_process.py`: SRT formatting -/

namespace Batch

/-- `format_time_srt(seconds)` of `batch_process.py`: convert seconds to
`HH:MM:SS,mmm`. -/
def format_time_srt (seconds : ℚ) : String :=
  let hours := pyInt (pyFloorDiv seconds 3600)
  let minutes := pyInt (pyFloorDiv (pyMod seconds 3600) 60)
  let secs := pyInt (pyMod seconds 60)
  let millisecs := pyInt (pyMod seconds 1 * 1000)
  zfill 2 hours ++ ":" ++ zfill 2 minutes ++ ":" ++ zfill 2 secs ++ "," ++ zfill 3 millisecs

/-- The SRT block `generate_srt_file` appends for index `i` and a segment:
`f"{i}\n{start_time} --> {end_time}\n{text}\n"`. -/
def mkSrtEntry (i : Nat) (s : Segment) : String :=
  toString i ++ "\n" ++ format_time_srt s.start ++ " --> " ++ format_time_srt s.stop
    ++ "\n" ++ s.text.trim ++ "\n"

/-- The list of blocks `generate_srt_file` collects: `enumerate(segments, 1)`
paired with the skip of whitespace-only text.  Note the index `p.1 + 1` is
the position in the *original* segment list. -/
def srtEntries (segs : List Segment) : List String :=
  segs.enum.filterMap fun p =>
    if p.2.text.trim ≠ "" then some (mkSrtEntry (p.1 + 1) p.2) else none

/-- The full file content `generate_srt_file` writes:
`"\n".join(srt_content)`. -/
def srtContent (r : Transcription) : String :=
  String.intercalate "\n" (srtEntries r.segments)

end Batch

/-! ### `video_english_recognition.py`: the same two functions, duplicated
verbatim in the source as methods of `VideoEnglishRecognizer`. -/

namespace Recog

/-- `VideoEnglishRecognizer.format_time_srt`. -/
def format_time_srt (seconds : ℚ) : String :=
  let hours := pyInt (pyFloorDiv seconds 3600)
  let minutes := pyInt (pyFloorDiv (pyMod seconds 3600) 60)
  let secs := pyInt (pyMod seconds 60)
  let millisecs := pyInt (pyMod seconds 1 * 1000)
  zfill 2 hours ++ ":" ++ zfill 2 minutes ++ ":" ++ zfill 2 secs ++ "," ++ zfill 3 millisecs

/-- The SRT block of `VideoEnglishRecognizer.generate_srt_file`. -/
def mkSrtEntry (i : Nat) (s : Segment) : String :=
  toString i ++ "\n" ++ format_time_srt s.start ++ " --> " ++ format_time_srt s.stop
    ++ "\n" ++ s.text.trim ++ "\n"

/-- The blocks collected by `VideoEnglishRecognizer.generate_srt_file`. -/
def srtEntries (segs : List Segment) : List String :=
  segs.enum.filterMap fun p =>
    if p.2.text.trim ≠ "" then some (mkSrtEntry (p.1 + 1) p.2) else none

/-- The content written by `VideoEnglishRecognizer.generate_srt_file`. -/
def srtContent (r : Transcription) : String :=
  String.intercalate "\n" (srtEntries r.segments)

end Recog

/-! ### Effect oracles and filesystem model

The filesystem is the list of existing paths.  The environment-dependent
outcomes (library failures, I/O errors) are decided by an `Oracles`
record; a write to path `p` raises an exception exactly when
`writeRaises p` is `true`, in which case the path is not created. -/

/-- The environment choices a single pipeline run depends on. -/
structure Oracles where
  /-- Whether the media library succeeds in decoding the audio track. -/
  extractOk : Bool
  /-- What `model.transcribe` returns (`none` models an exception). -/
  transcription : Option Transcription
  /-- Which file writes raise an I/O error (failing at `open`). -/
  writeRaises : String → Bool
  /-- Which `os.remove` calls raise an I/O error. -/
  removeRaises : String → Bool
  /-- `str(e)` of the exception raised by a failing `os.remove`. -/
  removeErrMsg : String

/-- The externally visible pipeline stages a run may invoke. -/
inductive Event where
  | extractAudio
  | transcribe
deriving DecidableEq

/-- The dict returned by `VideoEnglishRecognizer.process_video`:
`ok` is `{"success": True, ..., "transcription": t}` and `err` is
`{"success": False, "error": msg, ...}`.  (`video_path`, `output_path` and
`processing_time` are reproducible from the arguments or are wall-clock
data and are not tracked.) -/
inductive PVResult where
  | ok (t : Transcription)
  | err (msg : String)
deriving DecidableEq

/-- The `result["success"]` field. -/
def PVResult.success : PVResult → Bool
  | .ok _ => true
  | .err _ => false

/-- `VideoEnglishRecognizer.extract_audio_from_video`, called with an
explicit `audio_path` (as `process_video` does).  On success the waveform
file is written and its path returned; any failure inside the `try`
(decode failure or the file write raising) is caught and yields `None`. -/
def extract_audio_from_video (oc : Oracles) (st : List String)
    (video_path audio_path : String) : List String × Option String :=
  if oc.extractOk ∧ ¬oc.writeRaises audio_path then (st.insert audio_path, some audio_path)
  else (st, none)

/-- `VideoEnglishRecognizer.transcribe_audio`: fails fast when the audio
file does not exist, otherwise returns what the model returns (`none`
models an exception, caught and turned into `None`). -/
def transcribe_audio (oc : Oracles) (st : List String) (audio_path : String) :
    Option Transcription :=
  if audio_path ∈ st then oc.transcription else none

/-- Filesystem effect of `generate_srt_file(transcription_result,
output_path)` in `batch_process.py`: writes `Batch.srtContent` to the
path and returns `True`; an I/O error is caught and returns `False`. -/
def Batch.generate_srt_file (oc : Oracles) (st : List String)
    (r : Transcription) (output_path : String) : List String × Bool :=
  if oc.writeRaises output_path then (st, false) else (st.insert output_path, true)

/-- Filesystem effect of `VideoEnglishRecognizer.generate_srt_file`:
writes `Recog.srtContent` to the path, `False` on a caught I/O error. -/
def Recog.generate_srt_file (oc : Oracles) (st : List String)
    (r : Transcription) (srt_path : String) : List String × Bool :=
  if oc.writeRaises srt_path then (st, false) else (st.insert srt_path, true)

/-- `VideoEnglishRecognizer.save_transcription`: writes the JSON file,
generates the SRT via `Recog.generate_srt_file` (its failure is soft),
then writes the text file.  The whole body sits in a `try` whose handler
only logs, so no exception escapes and a write failure abandons the
remaining writes. -/
def save_transcription (oc : Oracles) (st : List String)
    (r : Transcription) (output_path : String) : List String :=
  let json_path := output_path.replace ".txt" ".json"
  if oc.writeRaises json_path then st
  else
    let st1 := st.insert json_path
    let srt_path := output_path.replace "_transcription.txt" ".srt"
    let st2 := (Recog.generate_srt_file oc st1 r srt_path).1
    if oc.writeRaises output_path then st2
    else st2.insert output_path

/-- `VideoEnglishRecognizer.process_video`: existence check, audio
extraction, transcription, saving, waveform cleanup.  Returns `none` where
the Python returns `None`; the broad `except` converts an exception after
extraction (here: only the `os.remove`) into an `err` result. -/
def process_video (oc : Oracles) (st : List String)
    (video_path output_dir : String) (clean_audio : Bool) :
    List String × List Event × Option PVResult :=
  if video_path ∉ st then (st, [], none)
  else
    let video_name := (pathStem (baseName video_path)).replace " " "_"
    let audio_path := pathJoin output_dir (video_name ++ "_audio.wav")
    let output_path := pathJoin output_dir (video_name ++ "_transcription.txt")
    match extract_audio_from_video oc st video_path audio_path with
    | (st1, none) => (st1, [.extractAudio], none)
    | (st1, some audio_file) =>
      match transcribe_audio oc st1 audio_file with
      | none => (st1, [.extractAudio, .transcribe], none)
      | some tr =>
        let st2 := save_transcription oc st1 tr output_path
        if clean_audio ∧ audio_file ∈ st2 then
          if oc.removeRaises audio_file then
            (st2, [.extractAudio, .transcribe], some (.err oc.removeErrMsg))
          else
            (st2.erase audio_file, [.extractAudio, .transcribe], some (.ok tr))
        else (st2, [.extractAudio, .transcribe], some (.ok tr))

/-- `process_single_video` of `batch_process.py`: skip check on the three
artifacts, then `process_video`, then the batch-level SRT generation.
Subscripting the `None` result raises a `TypeError`, caught by the broad
handler into a failure tuple. -/
def process_single_video (oc : Oracles) (st : List String)
    (video_path output_folder : String) : List String × List Event × Bool × String :=
  let video_name := pathStem (baseName video_path)
  let output_file := pathJoin output_folder (video_name ++ "_transcription.txt")
  let json_file := pathJoin output_folder (video_name ++ "_transcription.json")
  let srt_file := pathJoin output_folder (video_name ++ ".srt")
  if output_file ∈ st ∧ json_file ∈ st ∧ srt_file ∈ st then
    (st, [], true, "Already processed: " ++ video_name)
  else
    match process_video oc st video_path output_folder true with
    | (st1, evs, none) =>
      (st1, evs, false,
        "Error processing " ++ baseName video_path ++ ": NoneType object is not subscriptable")
    | (st1, evs, some (.err e)) =>
      (st1, evs, false, "Failed to process: " ++ video_name ++ " - " ++ e)
    | (st1, evs, some (.ok tr)) =>
      match Batch.generate_srt_file oc st1 tr srt_file with
      | (st2, true) =>
        (st2, evs, true, "Successfully processed: " ++ video_name ++ " (TXT, JSON, SRT created)")
      | (st2, false) =>
        (st2, evs, true, "Successfully processed: " ++ video_name ++ " (TXT, JSON created, SRT failed)")

/-- `get_video_files` of `batch_process.py`.  A directory is the list of
entry names it contains; `glob` with pattern `*{ext}` keeps the names
ending in `ext` (hidden names starting with a dot are not matched by
`*`), and the result is `sorted(list(set(...)))`. -/
def Batch.get_video_files (input_folder : String) (dirNames : List String) : List String :=
  let video_extensions := [".mp4", ".avi", ".mov", ".mkv", ".wmv", ".flv", ".webm", ".m4v"]
  let video_files := video_extensions.flatMap fun ext =>
    (dirNames.filter fun n => n.endsWith ext && !n.startsWith ".").map (pathJoin input_folder) ++
    (dirNames.filter fun n => n.endsWith ext.toUpper && !n.startsWith ".").map (pathJoin input_folder)
  List.insertionSort (· ≤ ·) video_files.dedup

/-- The stem `process_video` derives for a video path:
`Path(video_path).stem.replace(" ", "_")`. -/
def recogName (vp : String) : String := (pathStem (baseName vp)).replace " " "_"

/-- The waveform path `process_video` uses. -/
def recogAudioPath (dir vp : String) : String := pathJoin dir (recogName vp ++ "_audio.wav")

/-- The text-artifact path `process_video` uses. -/
def recogTxtPath (dir vp : String) : String := pathJoin dir (recogName vp ++ "_transcription.txt")

/-- The JSON path `save_transcription` derives from the text path. -/
def recogJsonPath (dir vp : String) : String := (recogTxtPath dir vp).replace ".txt" ".json"

/-- The SRT path `save_transcription` derives from the text path. -/
def recogSrtPath (dir vp : String) : String :=
  (recogTxtPath dir vp).replace "_transcription.txt" ".srt"

/-- The stem `process_single_video` derives: `Path(video_path).stem`,
with no space replacement. -/
def batchName (vp : String) : String := pathStem (baseName vp)

/-- The text path the batch skip check looks for. -/
def batchTxtPath (folder vp : String) : String :=
  pathJoin folder (batchName vp ++ "_transcription.txt")

/-- The JSON path the batch skip check looks for. -/
def batchJsonPath (folder vp : String) : String :=
  pathJoin folder (batchName vp ++ "_transcription.json")

/-- The SRT path the batch driver writes and the skip check looks for. -/
def batchSrtPath (folder vp : String) : String :=
  pathJoin folder (batchName vp ++ ".srt")

/-- The per-file loop of `main` in `batch_process.py`: discover the videos
in `input_videos`, run `process_single_video` on each into
`output_transcriptions`, and collect `(name, success, message)` tuples. -/
def runBatch (oc : Oracles) (inputNames : List String) (st : List String) :
    List String × List (String × Bool × String) :=
  let video_files := Batch.get_video_files "input_videos" inputNames
  video_files.foldl
    (fun acc video_file =>
      let r := process_single_video oc acc.1 video_file "output_transcriptions"
      (r.1, acc.2 ++ [(baseName video_file, r.2.2.1, r.2.2.2)]))
    (st, [])

/-! ### Concrete fixtures -/

/-- A small transcription record with a single segment. -/
def sampleT : Transcription := ⟨" Hello world.", [⟨0, mkRat 5 2, " Hello world."⟩]⟩

/-- An environment in which every stage succeeds. -/
def goodOr : Oracles := ⟨true, some sampleT, fun _ => false, fun _ => false, "oserror"⟩

/-- Segments whose first entry is whitespace-only: only the second is
emitted into the SRT. -/
def wsSegs : List Segment := [⟨0, 1, "   "⟩, ⟨1, 2, "hello"⟩]

/-- An environment in which only deleting the waveform file of `v.mp4`
raises. -/
def rmOr : Oracles :=
  ⟨true, some sampleT, fun _ => false, fun p => p == "output_transcriptions/v_audio.wav",
    "remove failed"⟩

/-- An environment in which only writing `v.srt` raises. -/
def srtFailOr : Oracles :=
  ⟨true, some sampleT, fun p => p == "output_transcriptions/v.srt", fun _ => false, "oserror"⟩

/-- An environment in which only writing `v_transcription.json` raises. -/
def jsonFailOr : Oracles :=
  ⟨true, some sampleT, fun p => p == "output_transcriptions/v_transcription.json",
    fun _ => false, "oserror"⟩

/-- A filesystem already holding the three artifacts of `v.mp4`. -/
def skipSt : List String :=
  ["output_transcriptions/v_transcription.txt",
   "output_transcriptions/v_transcription.json",
   "output_transcriptions/v.srt",
   "input_videos/v.mp4"]

/-- One successful per-video run on a name containing a space. -/
def spacedRun : List String × List Event × Bool × String :=
  process_single_video goodOr ["input_videos/my video.mp4"]
    "input_videos/my video.mp4" "output_transcriptions"

/-- First batch run over a directory holding `my video.mp4`. -/
def batchRun1 : List String × List (String × Bool × String) :=
  runBatch goodOr ["my video.mp4"] ["input_videos/my video.mp4"]

/-- Second batch run over the same directory, starting from the
filesystem the first run left behind. -/
def batchRun2 : List String × List (String × Bool × String) :=
  runBatch goodOr ["my video.mp4"] batchRun1.1

/-! ### Helper lemmas -/

lemma mem_recog_generate_srt {oc : Oracles} {st : List String} {r : Transcription}
    {p x : String} (h : x ∈ st) : x ∈ (Recog.generate_srt_file oc st r p).1 := by
  simp only [Recog.generate_srt_file]
  split
  · exact h
  · exact List.mem_insert_of_mem h

lemma mem_save_transcription {oc : Oracles} {st : List String} {r : Transcription}
    {p x : String} (h : x ∈ st) : x ∈ save_transcription oc st r p := by
  simp only [save_transcription]
  split
  · exact h
  · split
    · exact mem_recog_generate_srt (List.mem_insert_of_mem h)
    · exact List.mem_insert_of_mem (mem_recog_generate_srt (List.mem_insert_of_mem h))

lemma extract_audio_ok {oc : Oracles} {st : List String} {vp ap : String}
    (hex : oc.extractOk = true) (hw : oc.writeRaises ap = false) :
    extract_audio_from_video oc st vp ap = (st.insert ap, some ap) := by
  simp [extract_audio_from_video, hex, hw]

lemma transcribe_mem {oc : Oracles} {st : List String} {ap : String} (h : ap ∈ st) :
    transcribe_audio oc st ap = oc.transcription := by
  simp [transcribe_audio, h]

lemma save_transcription_json_raises {oc : Oracles} {st : List String} {r : Transcription}
    {p : String} (hw : oc.writeRaises (p.replace ".txt" ".json") = true) :
    save_transcription oc st r p = st := by
  simp [save_transcription, hw]

/-- Symbolic execution of a fully successful `process_video` run with
`clean_audio=True`: the waveform is written, transcribed, artifacts saved,
the waveform erased, and the result is the success dict. -/
lemma process_video_ok (oc : Oracles) (st : List String) (vp dir : String) (t : Transcription)
    (hvp : vp ∈ st) (hex : oc.extractOk = true) (htr : oc.transcription = some t)
    (hwA : oc.writeRaises (recogAudioPath dir vp) = false)
    (hrm : oc.removeRaises (recogAudioPath dir vp) = false) :
    process_video oc st vp dir true =
      ((save_transcription oc (st.insert (recogAudioPath dir vp)) t
          (recogTxtPath dir vp)).erase (recogAudioPath dir vp),
        [.extractAudio, .transcribe], some (.ok t)) := by
  simp only [recogAudioPath, recogTxtPath, recogName] at hwA hrm ⊢
  unfold process_video
  rw [if_neg (not_not.mpr hvp)]
  dsimp only
  rw [extract_audio_ok hex hwA]
  dsimp only
  rw [transcribe_mem (List.mem_insert_self _ _), htr]
  dsimp only
  rw [if_pos ⟨rfl, mem_save_transcription (List.mem_insert_self _ _)⟩]
  rw [if_neg (by simp [hrm])]

/-- Symbolic execution of `process_video` when `os.remove` on the waveform
raises: the broad handler converts the exception into the failure dict,
and the saved artifacts (and the waveform) remain on disk. -/
lemma process_video_remove_raises_eq (oc : Oracles) (st : List String) (vp dir : String)
    (t : Transcription)
    (hvp : vp ∈ st) (hex : oc.extractOk = true) (htr : oc.transcription = some t)
    (hwA : oc.writeRaises (recogAudioPath dir vp) = false)
    (hrm : oc.removeRaises (recogAudioPath dir vp) = true) :
    process_video oc st vp dir true =
      (save_transcription oc (st.insert (recogAudioPath dir vp)) t (recogTxtPath dir vp),
        [.extractAudio, .transcribe], some (.err oc.removeErrMsg)) := by
  simp only [recogAudioPath, recogTxtPath, recogName] at hwA hrm ⊢
  unfold process_video
  rw [if_neg (not_not.mpr hvp)]
  dsimp only
  rw [extract_audio_ok hex hwA]
  dsimp only
  rw [transcribe_mem (List.mem_insert_self _ _), htr]
  dsimp only
  rw [if_pos ⟨rfl, mem_save_transcription (List.mem_insert_self _ _)⟩]
  rw [if_pos hrm]

lemma filterMap_ite_eq_map_filter {α β : Type} (q : α → Prop) [DecidablePred q] (g : α → β)
    (l : List α) :
    (l.filterMap fun x => if q x then some (g x) else none) =
      (l.filter fun x => decide (q x)).map g := by
  induction l with
  | nil => rfl
  | cons a l ih =>
    by_cases h : q a <;> simp [List.filter_cons, h, ih]

lemma length_filter_enumFrom {α : Type} (q : α → Prop) [DecidablePred q] :
    ∀ (n : Nat) (l : List α),
      ((List.enumFrom n l).filter fun p => decide (q p.2)).length =
        (l.filter fun s => decide (q s)).length := by
  intro n l
  induction l generalizing n with
  | nil => rfl
  | cons a l ih => by_cases h : q a <;> simp [List.enumFrom, List.filter_cons, h, ih]

/-! ### Claim theorems -/

/-- Claim C1, counterexample: on a record whose first segment is
whitespace-only and whose second segment is `"hello"`, the single emitted
SRT entry carries index `2` (the original position), not the index `1`
that emitted-entries-only numbering would require. -/
theorem srt_index_skipped_segments_counterexample :
    Batch.srtEntries wsSegs = ["2\n00:00:01,000 --> 00:00:02,000\nhello\n"] ∧
    Batch.srtEntries wsSegs ≠ ["1\n00:00:01,000 --> 00:00:02,000\nhello\n"] := by
  with_unfolding_all decide

/-- Claim C1, amended: the SRT generator emits one entry per segment with
non-empty trimmed text, and the index written for each emitted entry is
the segment's 1-based position in the original segment list (whitespace
segments are skipped but still advance the numbering). -/
theorem srt_entries_numbered_by_original_position (segs : List Segment) :
    Batch.srtEntries segs =
      (segs.enum.filter fun p => decide (p.2.text.trim ≠ "")).map
        (fun p => Batch.mkSrtEntry (p.1 + 1) p.2) ∧
    (Batch.srtEntries segs).length =
      (segs.filter fun s => decide (s.text.trim ≠ "")).length := by
  have h1 : Batch.srtEntries segs =
      (segs.enum.filter fun p => decide (p.2.text.trim ≠ "")).map
        (fun p => Batch.mkSrtEntry (p.1 + 1) p.2) :=
    filterMap_ite_eq_map_filter (fun p : Nat × Segment => p.2.text.trim ≠ "")
      (fun p => Batch.mkSrtEntry (p.1 + 1) p.2) segs.enum
  refine ⟨h1, ?_⟩
  have h2 := length_filter_enumFrom (fun s : Segment => s.text.trim ≠ "") 0 segs
  calc (Batch.srtEntries segs).length
      = ((segs.enum.filter fun p => decide (p.2.text.trim ≠ "")).map
          (fun p => Batch.mkSrtEntry (p.1 + 1) p.2)).length := by rw [h1]
    _ = (segs.enum.filter fun p => decide (p.2.text.trim ≠ "")).length := List.length_map _ _
    _ = (segs.filter fun s => decide (s.text.trim ≠ "")).length := by
          simpa [List.enum] using h2

/-- Claim C2 (code bug, evaluated at the failing input): a successful run
on `input_videos/my video.mp4` writes the text/JSON/SRT artifacts under
the stem `my_video` (spaces replaced) while the batch driver's skip check
and SRT path use the stem `my video` — the artifact set does not share one
stem, and the text artifact the skip check looks for does not exist. -/
theorem spaced_name_artifact_stems_diverge :
    spacedRun.2.2.1 = true ∧
    spacedRun.1 = ["output_transcriptions/my video.srt",
      "output_transcriptions/my_video_transcription.txt",
      "output_transcriptions/my_video.srt",
      "output_transcriptions/my_video_transcription.json",
      "input_videos/my video.mp4"] ∧
    batchTxtPath "output_transcriptions" "input_videos/my video.mp4" ∉ spacedRun.1 ∧
    recogTxtPath "output_transcriptions" "input_videos/my video.mp4" ∈ spacedRun.1 ∧
    recogName "input_videos/my video.mp4" ≠ batchName "input_videos/my video.mp4" := by
  with_unfolding_all decide

/-- Claim C3 (code bug, evaluated at the failing input): after a first
successful batch run over a directory holding `my video.mp4`, the second
run re-processes the video (its message is the full-processing success
message, not the already-processed skip message), because the artifacts
were written under the stem `my_video` while the skip check looks for the
stem `my video`. -/
theorem second_batch_run_reprocesses_spaced_name :
    batchRun2.2 = [("my video.mp4", true,
      "Successfully processed: my video (TXT, JSON, SRT created)")] ∧
    batchRun2.2 ≠ [("my video.mp4", true, "Already processed: my video")] := by
  with_unfolding_all decide

/-- Claim C4, counterexample: with an environment where only the waveform
delete raises, `process_video` returns the failure dict (`success` is
`False`, `error` is the exception text), and the batch driver reports the
video as failed — contradicting the claim that the per-video result is
still reported as success. -/
theorem remove_failure_reported_failure_counterexample :
    (process_video rmOr ["input_videos/v.mp4"] "input_videos/v.mp4"
      "output_transcriptions" true).2.2 = some (PVResult.err "remove failed") ∧
    PVResult.success (PVResult.err "remove failed") = false ∧
    (process_single_video rmOr ["input_videos/v.mp4"] "input_videos/v.mp4"
      "output_transcriptions").2.2.1 = false := by
  with_unfolding_all decide

/-- Claim C4, amended: if deleting the intermediate waveform file after a
successful transcription raises, the exception is caught by
`process_video`'s broad handler (it is logged and does not propagate), but
the per-video result is the failure dict `{"success": False, "error":
str(e)}` — the waveform-delete failure demotes the video to a failure. -/
theorem process_video_remove_failure_caught_as_err
    (oc : Oracles) (st : List String) (vp dir : String) (t : Transcription)
    (hvp : vp ∈ st) (hex : oc.extractOk = true) (htr : oc.transcription = some t)
    (hwA : oc.writeRaises (recogAudioPath dir vp) = false)
    (hrm : oc.removeRaises (recogAudioPath dir vp) = true) :
    (process_video oc st vp dir true).2.2 = some (PVResult.err oc.removeErrMsg) ∧
    PVResult.success (PVResult.err oc.removeErrMsg) = false := by
  rw [process_video_remove_raises_eq oc st vp dir t hvp hex htr hwA hrm]
  exact ⟨rfl, rfl⟩

/-- Witness for C4's amended theorem at a concrete input. -/
theorem process_video_remove_failure_caught_as_err_witness :
    (process_video rmOr ["input_videos/v.mp4"] "input_videos/v.mp4"
      "output_transcriptions" true).2.2 = some (PVResult.err rmOr.removeErrMsg) ∧
    PVResult.success (PVResult.err rmOr.removeErrMsg) = false :=
  process_video_remove_failure_caught_as_err rmOr ["input_videos/v.mp4"]
    "input_videos/v.mp4" "output_transcriptions" sampleT
    (by with_unfolding_all decide) (by with_unfolding_all decide)
    (by with_unfolding_all decide) (by with_unfolding_all decide)
    (by with_unfolding_all decide)

/-- Claim C5: `get_video_files` always returns a lexicographically sorted
list without duplicates; an empty directory yields the empty list; and a
directory holding both `a.mp4` and `A.MP4` yields both files, each exactly
once. -/
theorem get_video_files_sorted_nodup_casefold :
    (∀ (folder : String) (dirNames : List String),
      (Batch.get_video_files folder dirNames).Sorted (· ≤ ·) ∧
      (Batch.get_video_files folder dirNames).Nodup) ∧
    Batch.get_video_files "input_videos" [] = [] ∧
    Batch.get_video_files "input_videos" ["a.mp4", "A.MP4"] =
      ["input_videos/A.MP4", "input_videos/a.mp4"] := by
  refine ⟨fun folder dirNames => ⟨?_, ?_⟩, ?_, ?_⟩
  · exact List.sorted_insertionSort _ _
  · exact ((List.perm_insertionSort _ _).nodup_iff).mpr (List.nodup_dedup _)
  · with_unfolding_all decide
  · with_unfolding_all decide

/-- Claim C6: the seconds-to-SRT-time conversion maps `3725.5` to
`"01:02:05,500"` and `0` to `"00:00:00,000"`, in both copies of the
formatter. -/
theorem format_time_srt_examples :
    Batch.format_time_srt (3725.5 : ℚ) = "01:02:05,500" ∧
    Batch.format_time_srt 0 = "00:00:00,000" ∧
    Recog.format_time_srt (3725.5 : ℚ) = "01:02:05,500" ∧
    Recog.format_time_srt 0 = "00:00:00,000" := by
  with_unfolding_all decide

/-- Claim C7: when all three artifacts of a video already exist,
`process_single_video` returns success with the already-processed message,
runs neither extraction nor transcription, and leaves the filesystem
untouched. -/
theorem process_single_video_skips_when_artifacts_exist
    (oc : Oracles) (st : List String) (vp folder : String)
    (h1 : batchTxtPath folder vp ∈ st)
    (h2 : batchJsonPath folder vp ∈ st)
    (h3 : batchSrtPath folder vp ∈ st) :
    process_single_video oc st vp folder =
      (st, [], true, "Already processed: " ++ batchName vp) := by
  simp only [batchTxtPath, batchJsonPath, batchSrtPath, batchName] at h1 h2 h3 ⊢
  unfold process_single_video
  simp [h1, h2, h3]

/-- Witness for C7's theorem at a concrete input. -/
theorem process_single_video_skips_when_artifacts_exist_witness :
    process_single_video goodOr skipSt "input_videos/v.mp4" "output_transcriptions" =
      (skipSt, [], true, "Already processed: " ++ batchName "input_videos/v.mp4") :=
  process_single_video_skips_when_artifacts_exist goodOr skipSt
    "input_videos/v.mp4" "output_transcriptions"
    (by with_unfolding_all decide) (by with_unfolding_all decide)
    (by with_unfolding_all decide)

/-- Claim C8: when extraction, transcription and the recognizer-side
saving succeed but the batch driver's SRT write raises,
`process_single_video` still reports overall success, with the message
noting the SRT failure. -/
theorem process_single_video_srt_failure_soft
    (oc : Oracles) (st : List String) (vp folder : String) (t : Transcription)
    (hskip : ¬(batchTxtPath folder vp ∈ st ∧ batchJsonPath folder vp ∈ st ∧
        batchSrtPath folder vp ∈ st))
    (hvp : vp ∈ st) (hex : oc.extractOk = true) (htr : oc.transcription = some t)
    (hwA : oc.writeRaises (recogAudioPath folder vp) = false)
    (hrm : oc.removeRaises (recogAudioPath folder vp) = false)
    (hwS : oc.writeRaises (batchSrtPath folder vp) = true) :
    (process_single_video oc st vp folder).2.2 =
      (true, "Successfully processed: " ++ batchName vp ++ " (TXT, JSON created, SRT failed)") := by
  have hpv := process_video_ok oc st vp folder t hvp hex htr hwA hrm
  simp only [batchTxtPath, batchJsonPath, batchSrtPath, batchName] at hskip hwS ⊢
  unfold process_single_video
  rw [if_neg hskip]
  rw [hpv]
  simp [Batch.generate_srt_file, hwS]

/-- Witness for C8's theorem at a concrete input. -/
theorem process_single_video_srt_failure_soft_witness :
    (process_single_video srtFailOr ["input_videos/v.mp4"] "input_videos/v.mp4"
      "output_transcriptions").2.2 =
      (true, "Successfully processed: " ++ batchName "input_videos/v.mp4"
        ++ " (TXT, JSON created, SRT failed)") :=
  process_single_video_srt_failure_soft srtFailOr ["input_videos/v.mp4"]
    "input_videos/v.mp4" "output_transcriptions" sampleT
    (by with_unfolding_all decide) (by with_unfolding_all decide)
    (by with_unfolding_all decide) (by with_unfolding_all decide)
    (by with_unfolding_all decide) (by with_unfolding_all decide)
    (by with_unfolding_all decide)

/-- Claim C9: if writing the JSON artifact raises, the exception is caught
inside `save_transcription`, so `process_video` still returns the success
dict — yet neither the text nor the JSON artifact exists afterwards. -/
theorem process_video_success_despite_json_write_failure
    (oc : Oracles) (st : List String) (vp dir : String) (t : Transcription)
    (hvp : vp ∈ st) (hex : oc.extractOk = true) (htr : oc.transcription = some t)
    (hwA : oc.writeRaises (recogAudioPath dir vp) = false)
    (hrm : oc.removeRaises (recogAudioPath dir vp) = false)
    (hwJ : oc.writeRaises (recogJsonPath dir vp) = true)
    (hT : recogTxtPath dir vp ∉ st) (hJ : recogJsonPath dir vp ∉ st)
    (hTA : recogTxtPath dir vp ≠ recogAudioPath dir vp)
    (hJA : recogJsonPath dir vp ≠ recogAudioPath dir vp) :
    (process_video oc st vp dir true).2.2 = some (PVResult.ok t) ∧
    recogTxtPath dir vp ∉ (process_video oc st vp dir true).1 ∧
    recogJsonPath dir vp ∉ (process_video oc st vp dir true).1 := by
  have hsave : save_transcription oc (st.insert (recogAudioPath dir vp)) t
      (recogTxtPath dir vp) = st.insert (recogAudioPath dir vp) := by
    apply save_transcription_json_raises
    simpa only [recogJsonPath] using hwJ
  rw [process_video_ok oc st vp dir t hvp hex htr hwA hrm, hsave]
  refine ⟨rfl, ?_, ?_⟩
  · intro hmem
    rcases List.mem_insert_iff.mp (List.mem_of_mem_erase hmem) with h | h
    · exact hTA h
    · exact hT h
  · intro hmem
    rcases List.mem_insert_iff.mp (List.mem_of_mem_erase hmem) with h | h
    · exact hJA h
    · exact hJ h

/-- Witness for C9's theorem at a concrete input. -/
theorem process_video_success_despite_json_write_failure_witness :
    (process_video jsonFailOr ["input_videos/v.mp4"] "input_videos/v.mp4"
      "output_transcriptions" true).2.2 = some (PVResult.ok sampleT) ∧
    recogTxtPath "output_transcriptions" "input_videos/v.mp4" ∉
      (process_video jsonFailOr ["input_videos/v.mp4"] "input_videos/v.mp4"
        "output_transcriptions" true).1 ∧
    recogJsonPath "output_transcriptions" "input_videos/v.mp4" ∉
      (process_video jsonFailOr ["input_videos/v.mp4"] "input_videos/v.mp4"
        "output_transcriptions" true).1 :=
  process_video_success_despite_json_write_failure jsonFailOr ["input_videos/v.mp4"]
    "input_videos/v.mp4" "output_transcriptions" sampleT
    (by with_unfolding_all decide) (by with_unfolding_all decide)
    (by with_unfolding_all decide) (by with_unfolding_all decide)
    (by with_unfolding_all decide) (by with_unfolding_all decide)
    (by with_unfolding_all decide) (by with_unfolding_all decide)
    (by with_unfolding_all decide) (by with_unfolding_all decide)

/-- Claim C10: the SRT generator of the batch driver and the SRT generator
method of the recognizer (and their time formatters, and their filesystem
effects) agree on every input. -/
theorem srt_generation_batch_recog_agree :
    (∀ r : Transcription, Batch.srtContent r = Recog.srtContent r) ∧
    (∀ s : ℚ, Batch.format_time_srt s = Recog.format_time_srt s) ∧
    (∀ (oc : Oracles) (st : List String) (r : Transcription) (p : String),
      Batch.generate_srt_file oc st r p = Recog.generate_srt_file oc st r p) :=
  ⟨fun r => rfl, fun s => rfl, fun oc st r p => rfl⟩

end VideoRec
